import Mathlib

/-!
Verification development for the finavi backend ledger engine
(`tontine_integration_test.js` server portion).

The JavaScript server is shallowly embedded: every definition below is a
direct translation of a server function.  Monetary values (JS numbers) are
modelled as rationals, MongoDB collections as Lean lists in insertion order
(`findOne` is `List.find?`, `updateOne`/`findOneAndUpdate` are `List.map`
with the query filter reproduced in the update predicate; `_id` is unique in
MongoDB, which theorems carry as a `Nodup` hypothesis where it matters).
Dates `YYYY-MM-DD` are modelled as a pair of a month key (the `YYYY-MM`
prefix, used by the month regex in `calculateBudgetsAvailable`) and a
day-of-month; lexicographic order on the pair coincides with the string
order used by `.sort(\x7bdate: -1\x7d)`.
-/

namespace Finavi

/-- Budget frequency enum (`frequency ∈ ['daily','weekly','monthly']`). -/
inductive Frequency where
  | daily
  | weekly
  | monthly
deriving DecidableEq

/-- Budget document (schema `budgetMongooseSchema`). -/
structure Budget where
  id : Nat
  userId : Nat
  name : String
  amount : ℚ
  frequency : Frequency
  isPrimary : Bool
  initialAmount : ℚ
  currentAmount : ℚ
deriving DecidableEq

/-- Transaction type enum (`type ∈ ['expense','gain']`). -/
inductive TxType where
  | expense
  | gain
deriving DecidableEq

/-- Date: `ym` models the `YYYY-MM` prefix, `d` the day of month. -/
structure Date where
  ym : Nat
  d : Nat
deriving DecidableEq

/-- Chronological strict order on dates, mirroring lexicographic order of
`YYYY-MM-DD` strings. -/
def Date.before (a b : Date) : Bool :=
  a.ym < b.ym || (a.ym == b.ym && a.d < b.d)

/-- Transaction document (schema `transactionMongooseSchema`). -/
structure Txn where
  userId : Nat
  budgetId : Option Nat
  type : TxType
  amount : ℚ
  comment : String
  date : Date
deriving DecidableEq

/-- Day document (schema `dayMongooseSchema`); unique per `(userId, date)`. -/
structure DayRec where
  userId : Nat
  date : Date
  initialPocket : ℚ
  budgetsAvailable : ℚ
  gains : ℚ
  expenses : ℚ
  finalPocket : ℚ
  locked : Bool
deriving DecidableEq

/-- JournalEntry transaction type (`txType ∈ ['expense','gain','adjustment']`). -/
inductive JType where
  | expense
  | gain
  | adjustment
deriving DecidableEq

/-- One element of a JournalEntry's `affected` array. -/
structure AffectedEntry where
  budgetId : Nat
  before : ℚ
  after : ℚ
deriving DecidableEq

/-- JournalEntry document (schema `journalEntrySchema`). -/
structure JEntry where
  userId : Nat
  txType : JType
  amount : ℚ
  affected : List AffectedEntry
  ruleApplied : String
deriving DecidableEq

/-- Objective document (schema `objectiveSchema`), ledger-relevant fields. -/
structure Objective where
  id : Nat
  userId : Nat
  targetAmount : ℚ
  savedAmount : ℚ
  achieved : Bool
deriving DecidableEq

/-- Tontine member subdocument. -/
structure TontineMember where
  userId : Nat
  contributed : ℚ
  position : Nat
deriving DecidableEq

/-- Tontine document (schema `tontineSchema`), ledger-relevant fields. -/
structure Tontine where
  id : Nat
  name : String
  contributionAmount : ℚ
  budgetId : Option Nat
  totalAmount : ℚ
  members : List TontineMember
deriving DecidableEq

/-- The persistent store: the four ledger collections plus the two
collaborator collections whose endpoints touch the ledger. -/
structure St where
  budgets : List Budget
  transactions : List Txn
  days : List DayRec
  journal : List JEntry
  objectives : List Objective
  tontines : List Tontine
deriving DecidableEq

/-! ## Primitive store operations -/

/-- JS truthiness chain `a || b` on numbers (`0` is falsy; `NaN` not modelled). -/
def jsOr (a b : ℚ) : ℚ := if a = 0 then b else a

/-- `Math.round(x * 100) / 100` — round to two decimals.  JS `Math.round`
rounds half toward `+∞`, as does Mathlib's `round` (`⌊x + 1/2⌋`). -/
def round2 (q : ℚ) : ℚ := ((round (q * 100) : ℤ) : ℚ) / 100

/-- `Budget.findById(id)`. -/
def St.findBudget (s : St) (id : Nat) : Option Budget :=
  s.budgets.find? (fun b => b.id == id)

/-- `Budget.findOne(\x7b userId, frequency: 'weekly' \x7d)`. -/
def St.findWeekly (s : St) (userId : Nat) : Option Budget :=
  s.budgets.find? (fun b => b.userId == userId && b.frequency == Frequency.weekly)

/-- `Budget.findOne(\x7b userId, frequency: 'monthly', isPrimary: true \x7d)`. -/
def St.findPrimaryMonthly (s : St) (userId : Nat) : Option Budget :=
  s.budgets.find? (fun b =>
    b.userId == userId && b.frequency == Frequency.monthly && b.isPrimary)

/-- `Budget.updateOne(\x7b _id \x7d, \x7b $set: \x7b currentAmount: v \x7d \x7d)`. -/
def St.setCur (s : St) (id : Nat) (v : ℚ) : St :=
  { s with budgets := s.budgets.map (fun b =>
      if b.id == id then { b with currentAmount := v } else b) }

/-- `Budget.updateOne(\x7b _id \x7d, \x7b $inc: \x7b currentAmount: amt \x7d \x7d)`
(the compensation update of the fallback paths). -/
def St.incCur (s : St) (id : Nat) (amt : ℚ) : St :=
  { s with budgets := s.budgets.map (fun b =>
      if b.id == id then { b with currentAmount := b.currentAmount + amt } else b) }

/-- `Budget.findOneAndUpdate(\x7b _id, currentAmount: \x7b $gte: amt \x7d \x7d,
\x7b $inc: \x7b currentAmount: -amt \x7d \x7d)` — the conditional compare-and-swap
decrement of the fallback paths.  Returns `none` when no document matches
(the conditional update lost the race). -/
def St.condDecOne (s : St) (id : Nat) (amt : ℚ) : Option St :=
  if s.budgets.any (fun b => b.id == id && decide (amt ≤ b.currentAmount)) then
    some { s with budgets := s.budgets.map (fun b =>
      if b.id == id && decide (amt ≤ b.currentAmount) then
        { b with currentAmount := b.currentAmount - amt } else b) }
  else
    none

/-- Sum of `amount` over this user's expense transactions of the month of
`ym` (`Transaction.find` with the `^YYYY-MM` regex, then `reduce`). -/
def monthExpenses (s : St) (userId : Nat) (ym : Nat) : ℚ :=
  ((s.transactions.filter (fun t =>
      t.userId == userId && t.type == TxType.expense && t.date.ym == ym)).map
    Txn.amount).sum

/-- Sum of today's gain transactions for the user
(`todayTransactions.filter(t => t.type === 'gain').reduce(...)`). -/
def dayGains (s : St) (userId : Nat) (date : Date) : ℚ :=
  ((s.transactions.filter (fun t =>
      t.userId == userId && t.date == date && t.type == TxType.gain)).map
    Txn.amount).sum

/-- Sum of today's expense transactions for the user. -/
def dayExpenses (s : St) (userId : Nat) (date : Date) : ℚ :=
  ((s.transactions.filter (fun t =>
      t.userId == userId && t.date == date && t.type == TxType.expense)).map
    Txn.amount).sum

/-- `Day.findOne(\x7b userId \x7d).sort(\x7b date: -1 \x7d).limit(1)` — the user's
day record with the greatest date. -/
def latestDay (s : St) (userId : Nat) : Option DayRec :=
  (s.days.filter (fun d => d.userId == userId)).foldl
    (fun acc d =>
      match acc with
      | none => some d
      | some m => if Date.before m.date d.date then some d else some m)
    none

/-- `lastDay ? lastDay.finalPocket : 0`. -/
def lastDayFinal (s : St) (userId : Nat) : ℚ :=
  match latestDay s userId with
  | some d => d.finalPocket
  | none => 0

/-- `Day.findOne(\x7b userId, date \x7d)`. -/
def St.findDay (s : St) (userId : Nat) (date : Date) : Option DayRec :=
  s.days.find? (fun d => d.userId == userId && d.date == date)

/-- `Day.updateOne(\x7b userId, date \x7d, \x7b $set: ... \x7d, \x7b upsert: true \x7d)`:
update the matching record's listed fields (preserving `locked`), or insert a
fresh record (`locked` takes its schema default `false`). -/
def upsertDay (s : St) (userId : Nat) (date : Date)
    (ip ba g e fp : ℚ) : St :=
  if s.days.any (fun d => d.userId == userId && d.date == date) then
    { s with days := s.days.map (fun d =>
        if d.userId == userId && d.date == date then
          { d with initialPocket := ip, budgetsAvailable := ba, gains := g,
                   expenses := e, finalPocket := fp }
        else d) }
  else
    { s with days := s.days ++
        [{ userId := userId, date := date, initialPocket := ip,
           budgetsAvailable := ba, gains := g, expenses := e,
           finalPocket := fp, locked := false }] }

/-! ## calculateBudgetsAvailable (Availability Reconciler) -/

/-- `calculateBudgetsAvailable(userId, currentDate, session)`: computes the
available-this-month figure from the primary monthly budget's baseline minus
this month's expense transactions, and self-heals the stored
`currentAmount` (plus an `adjustment` JournalEntry) when it drifts by more
than `0.01`.  Returns the computed figure and the possibly-updated store. -/
def calculateBudgetsAvailable (s : St) (userId : Nat) (currentDate : Date) :
    ℚ × St :=
  match s.findPrimaryMonthly userId with
  | none => (0, s)
  | some primary =>
    let totalExpenses := monthExpenses s userId currentDate.ym
    let base := jsOr primary.initialAmount
      (jsOr primary.amount (jsOr primary.currentAmount 0))
    let available := max 0 (round2 (base - totalExpenses))
    let stored := primary.currentAmount
    let diff := |stored - available|
    if 1/100 < diff then
      let je : JEntry :=
        { userId := userId, txType := JType.adjustment,
          amount := round2 (available - stored),
          affected := [⟨primary.id, stored, available⟩],
          ruleApplied := "reconcile_primary_current_amount" }
      let s1 := s.setCur primary.id available
      (available, { s1 with journal := s1.journal ++ [je] })
    else
      (available, s)

/-! ## validateBudgetHierarchy -/

/-- Which validation rule rejected the request; each carries the
`Math.floor` of the cap that appears in the server's message string. -/
inductive ValidationMsg where
  | notPositive
  | weeklyCap (maxWeekly : ℤ)
  | dailyCapMonthly (maxDaily : ℤ)
  | dailyCapWeekly (maxDaily : ℤ)
deriving DecidableEq

/-- Result of `validateBudgetHierarchy`. -/
inductive Validation where
  | valid
  | invalid (msg : ValidationMsg)
deriving DecidableEq

/-- `Number(primary.initialAmount || primary.amount || 0)`. -/
def primaryBase (p : Budget) : ℚ := jsOr p.initialAmount (jsOr p.amount 0)

/-- `Number(weekly.amount || weekly.initialAmount || 0)`. -/
def weeklyBase (w : Budget) : ℚ := jsOr w.amount (jsOr w.initialAmount 0)

/-- `validateBudgetHierarchy(userId, frequency, amount)`: positivity, then
the monthly/4 cap for weekly budgets, the monthly/28 cap for daily budgets,
then the weekly/7 cap for daily budgets — first failing rule wins. -/
def validateBudgetHierarchy (s : St) (userId : Nat) (frequency : Frequency)
    (amount : ℚ) : Validation :=
  if amount ≤ 0 then Validation.invalid ValidationMsg.notPositive
  else
    let primary := s.findPrimaryMonthly userId
    match frequency with
    | Frequency.weekly =>
      match primary with
      | some p =>
        let maxWeekly := primaryBase p / 4
        if maxWeekly < amount then
          Validation.invalid (ValidationMsg.weeklyCap ⌊maxWeekly⌋)
        else Validation.valid
      | none => Validation.valid
    | Frequency.daily =>
      let step1 : Option Validation :=
        match primary with
        | some p =>
          let maxDaily := primaryBase p / 28
          if maxDaily < amount then
            some (Validation.invalid (ValidationMsg.dailyCapMonthly ⌊maxDaily⌋))
          else none
        | none => none
      match step1 with
      | some v => v
      | none =>
        match s.findWeekly userId with
        | some w =>
          let maxDailyFromWeekly := weeklyBase w / 7
          if maxDailyFromWeekly < amount then
            Validation.invalid (ValidationMsg.dailyCapWeekly ⌊maxDailyFromWeekly⌋)
          else Validation.valid
        | none => Validation.valid
    | Frequency.monthly => Validation.valid

/-! ## Cascade Engine (POST /api/transactions) -/

/-- Error outcomes of `POST /api/transactions` (and the other ledger
mutations), tagged with the server's HTTP semantics. -/
inductive TxError where
  | validationError
  | dayLocked
  | budgetNotFound
  | negativeBalance (budgetName : String) (after : ℚ)
  | conflict
  | objectiveNotFound
  | tontineNotFound
  | notOwner
  | notMember
  | overBudget
  | internalError
deriving DecidableEq

/-- HTTP status the server pairs with each error. -/
def TxError.httpStatus : TxError → Nat
  | TxError.validationError => 400
  | TxError.dayLocked => 403
  | TxError.budgetNotFound => 404
  | TxError.negativeBalance _ _ => 400
  | TxError.conflict => 409
  | TxError.objectiveNotFound => 404
  | TxError.tontineNotFound => 404
  | TxError.notOwner => 403
  | TxError.notMember => 400
  | TxError.overBudget => 400
  | TxError.internalError => 500

/-- Overall outcome of a ledger mutation request. -/
inductive TxOutcome where
  | created
  | failed (e : TxError)
deriving DecidableEq

/-- Cascade set of `POST /api/transactions`: the target budget plus its
immediate parent only — daily pushes the weekly budget (explicitly not the
monthly), weekly pushes the primary monthly budget. -/
def cascadeSet (s : St) (userId : Nat) (target : Budget) : List Budget :=
  [target] ++
    (match target.frequency with
     | Frequency.daily => (s.findWeekly userId).toList
     | Frequency.weekly => (s.findPrimaryMonthly userId).toList
     | Frequency.monthly => [])

/-- The before/after check loop: for each budget of the cascade set compute
`before = currentAmount`, `after = before - amount`; the first `after < 0`
rejects the whole operation, otherwise the `affected` list is produced. -/
def checkCascade (toUpdate : List Budget) (amt : ℚ) :
    Except TxError (List AffectedEntry) :=
  match toUpdate with
  | [] => Except.ok []
  | b :: rest =>
    let before := b.currentAmount
    let after := before - amt
    if after < 0 then Except.error (TxError.negativeBalance b.name after)
    else
      match checkCascade rest amt with
      | Except.ok l => Except.ok (⟨b.id, before, after⟩ :: l)
      | Except.error e => Except.error e

/-- Persist the checked cascade:
`Budget.updateOne(\x7b _id \x7d, \x7b $set: \x7b currentAmount: after \x7d \x7d)` per entry. -/
def applyAffected (s : St) (l : List AffectedEntry) : St :=
  l.foldl (fun st a => st.setCur a.budgetId a.after) s

/-- The Day-rollup upsert shared by every route mutating the ledger: re-sum
today's gains/expenses, take `initialPocket` from the user's latest Day
record, recompute `budgetsAvailable` (which may reconcile the primary
budget), and upsert `finalPocket = initialPocket + gains - expenses`. -/
def updateDayTotals (s : St) (userId : Nat) (currentDate : Date) : St :=
  let totalGains := dayGains s userId currentDate
  let totalExpenses := dayExpenses s userId currentDate
  let initialPocket := lastDayFinal s userId
  let (budgetsAvailable, s1) := calculateBudgetsAvailable s userId currentDate
  let finalPocket := initialPocket + totalGains - totalExpenses
  upsertDay s1 userId currentDate initialPocket budgetsAvailable totalGains
    totalExpenses finalPocket

/-- Transactional branch of `POST /api/transactions` (whole body runs inside
one session; any rejection aborts, leaving the store untouched). -/
def postTxTransactional (s : St) (userId : Nat) (type : TxType) (amount : ℚ)
    (comment : String) (budgetId : Nat) (currentDate : Date) :
    TxOutcome × St :=
  -- transaction.save(\x7b session \x7d)
  let tx : Txn := { userId := userId, budgetId := some budgetId, type := type,
                    amount := amount, comment := comment, date := currentDate }
  let s0 : St := { s with transactions := s.transactions ++ [tx] }
  match type with
  | TxType.expense =>
    match s0.findBudget budgetId with
    | none => (TxOutcome.failed TxError.budgetNotFound, s)   -- abortTransaction
    | some targetBudget =>
      let toUpdate := cascadeSet s0 userId targetBudget
      match checkCascade toUpdate amount with
      | Except.error e => (TxOutcome.failed e, s)            -- abortTransaction
      | Except.ok affected =>
        let s1 := applyAffected s0 affected
        let je : JEntry := { userId := userId, txType := JType.expense,
                             amount := amount, affected := affected,
                             ruleApplied := "cascade_expense" }
        let s2 : St := { s1 with journal := s1.journal ++ [je] }
        (TxOutcome.created, updateDayTotals s2 userId currentDate)
  | TxType.gain =>
    let je : JEntry := { userId := userId, txType := JType.gain,
                         amount := amount, affected := [],
                         ruleApplied := "gain_to_savings" }
    let s2 : St := { s0 with journal := s0.journal ++ [je] }
    (TxOutcome.created, updateDayTotals s2 userId currentDate)

/-- The fallback's conditional-update loop with its `updated` accumulator:
apply `findOneAndUpdate` per affected budget in order; on the first failure
return the state reached and the ids already decremented (for the `catch`
block's compensation). -/
def applyCondLoop (s : St) (entries : List AffectedEntry) (amt : ℚ) :
    Except (St × List Nat) St :=
  match entries with
  | [] => Except.ok s
  | a :: rest =>
    match s.condDecOne a.budgetId amt with
    | none => Except.error (s, [])
    | some s1 =>
      match applyCondLoop s1 rest amt with
      | Except.ok sFinal => Except.ok sFinal
      | Except.error (sf, upd) => Except.error (sf, a.budgetId :: upd)

/-- The `catch` block's compensation: `$inc` the amount back onto every
budget of `updated`, in order. -/
def compensate (s : St) (updated : List Nat) (amt : ℚ) : St :=
  updated.foldl (fun st id => st.incCur id amt) s

/-- Fallback branch of `POST /api/transactions` for an expense.  `interf`
models writes by concurrent requests that land between the snapshot
availability check and the conditional updates (the awaits of the JS code);
single-threaded executions take `interf = id`. -/
def postTxFallbackExpense (interf : St → St) (s : St) (userId : Nat)
    (amount : ℚ) (comment : String) (budgetId : Nat) (currentDate : Date) :
    TxOutcome × St :=
  match s.findBudget budgetId with
  | none => (TxOutcome.failed TxError.budgetNotFound, s)
  | some targetBudget =>
    let toUpdate := cascadeSet s userId targetBudget
    match checkCascade toUpdate amount with
    | Except.error e => (TxOutcome.failed e, s)
    | Except.ok affected =>
      let sRace := interf s
      match applyCondLoop sRace affected amount with
      | Except.error (sf, updated) =>
        -- revert applied updates, then 409
        (TxOutcome.failed TxError.conflict, compensate sf updated amount)
      | Except.ok s1 =>
        let tx : Txn := { userId := userId, budgetId := some budgetId,
                          type := TxType.expense, amount := amount,
                          comment := comment, date := currentDate }
        let je : JEntry := { userId := userId, txType := JType.expense,
                             amount := amount, affected := affected,
                             ruleApplied := "cascade_expense_fallback" }
        let s2 : St := { s1 with transactions := s1.transactions ++ [tx],
                                 journal := s1.journal ++ [je] }
        (TxOutcome.created, updateDayTotals s2 userId currentDate)

/-- Fallback branch of `POST /api/transactions` for a gain. -/
def postTxFallbackGain (s : St) (userId : Nat) (amount : ℚ)
    (comment : String) (budgetId : Nat) (currentDate : Date) :
    TxOutcome × St :=
  let tx : Txn := { userId := userId, budgetId := some budgetId,
                    type := TxType.gain, amount := amount, comment := comment,
                    date := currentDate }
  let je : JEntry := { userId := userId, txType := JType.gain,
                       amount := amount, affected := [],
                       ruleApplied := "gain_to_savings" }
  let s2 : St := { s with transactions := s.transactions ++ [tx],
                          journal := s.journal ++ [je] }
  (TxOutcome.created, updateDayTotals s2 userId currentDate)

/-- `POST /api/transactions`: Joi validation (`amount` must be positive),
day-lock check, target existence check for expenses, then the
transactional or fallback branch according to `TRANSACTIONS_SUPPORTED`. -/
def postTransaction (txSupported : Bool) (interf : St → St) (s : St)
    (userId : Nat) (type : TxType) (amount : ℚ) (comment : String)
    (budgetId : Nat) (currentDate : Date) : TxOutcome × St :=
  if amount ≤ 0 then (TxOutcome.failed TxError.validationError, s)
  else if (s.findDay userId currentDate).any DayRec.locked then
    (TxOutcome.failed TxError.dayLocked, s)
  else if type == TxType.expense && (s.findBudget budgetId).isNone then
    (TxOutcome.failed TxError.budgetNotFound, s)
  else if txSupported then
    postTxTransactional s userId type amount comment budgetId currentDate
  else
    match type with
    | TxType.expense =>
      postTxFallbackExpense interf s userId amount comment budgetId currentDate
    | TxType.gain =>
      postTxFallbackGain s userId amount comment budgetId currentDate

/-! ## POST /api/budgets and PUT /api/budgets/:id -/

/-- `POST /api/budgets`: create a budget, with the single-primary rule, the
hierarchy validation, and — for non-primary weekly budgets — the automatic
allocation that decrements the primary monthly budget (transactional or
conditional fallback).  The `clientId` idempotent-create short-circuit is
omitted: that branch returns an existing budget without mutating the store.
`newId` stands for the fresh MongoDB `_id`. -/
def createBudget (txSupported : Bool) (interf : St → St) (s : St)
    (userId : Nat) (newId : Nat) (name : String) (amount : ℚ)
    (frequency : Frequency) (isPrimary : Bool) : TxOutcome × St :=
  if amount ≤ 0 then (TxOutcome.failed TxError.validationError, s)
  else if isPrimary &&
      (s.budgets.any (fun b => b.userId == userId && b.isPrimary)) then
    (TxOutcome.failed TxError.validationError, s)
  else if isPrimary && !(frequency == Frequency.monthly) then
    (TxOutcome.failed TxError.validationError, s)
  else if !isPrimary &&
      !(validateBudgetHierarchy s userId frequency amount == Validation.valid) then
    (TxOutcome.failed TxError.validationError, s)
  else
    let budget : Budget :=
      { id := newId, userId := userId, name := name, amount := amount,
        frequency := frequency, isPrimary := isPrimary,
        initialAmount := amount, currentAmount := amount }
    if !isPrimary && frequency == Frequency.weekly then
      if txSupported then
        match s.findPrimaryMonthly userId with
        | none => (TxOutcome.failed TxError.validationError, s)
        | some primary =>
          let before := primary.currentAmount
          let after := before - amount
          if after < 0 then
            (TxOutcome.failed (TxError.negativeBalance primary.name after), s)
          else
            let s1 : St := { s with budgets := s.budgets ++ [budget] }
            let s2 := s1.setCur primary.id after
            let je : JEntry :=
              { userId := userId, txType := JType.expense, amount := amount,
                affected := [⟨primary.id, before, after⟩,
                             ⟨budget.id, amount, amount⟩],
                ruleApplied := "allocation_weekly_from_month" }
            (TxOutcome.created, { s2 with journal := s2.journal ++ [je] })
      else
        match s.findPrimaryMonthly userId with
        | none => (TxOutcome.failed TxError.validationError, s)
        | some primary =>
          let before := primary.currentAmount
          let after := before - amount
          if after < 0 then
            (TxOutcome.failed (TxError.negativeBalance primary.name after), s)
          else
            let sRace := interf s
            match sRace.condDecOne primary.id amount with
            | none => (TxOutcome.failed TxError.conflict, sRace)
            | some s1 =>
              let s2 : St := { s1 with budgets := s1.budgets ++ [budget] }
              let je : JEntry :=
                { userId := userId, txType := JType.expense, amount := amount,
                  affected := [⟨primary.id, before, after⟩],
                  ruleApplied := "allocation_weekly_from_month_fallback" }
              (TxOutcome.created, { s2 with journal := s2.journal ++ [je] })
    else
      (TxOutcome.created, { s with budgets := s.budgets ++ [budget] })

/-- `PUT /api/budgets/:id`: rename and/or change the nominal `amount`
(re-validated against the hierarchy caps; primary amount immutable;
`frequency` is intentionally not updatable).  Only the `amount` field is
written — `currentAmount`/`initialAmount` are untouched. -/
def editBudget (s : St) (id : Nat) (newName : Option String)
    (newAmount : Option ℚ) : TxOutcome × St :=
  match s.findBudget id with
  | none => (TxOutcome.failed TxError.budgetNotFound, s)
  | some budget =>
    -- `if (name) budget.name = name` — the empty string is falsy in JS
    let name1 := match newName with
      | some n => if n == "" then budget.name else n
      | none => budget.name
    match newAmount with
    | none =>
      (TxOutcome.created,
       { s with budgets := s.budgets.map (fun b =>
           if b.id == id then { b with name := name1 } else b) })
    | some amt =>
      if amt ≤ 0 then (TxOutcome.failed TxError.validationError, s)
      else if budget.isPrimary then
        (TxOutcome.failed TxError.validationError, s)
      else if !(validateBudgetHierarchy s budget.userId budget.frequency amt ==
          Validation.valid) then
        (TxOutcome.failed TxError.validationError, s)
      else
        (TxOutcome.created,
         { s with budgets := s.budgets.map (fun b =>
             if b.id == id then { b with name := name1, amount := amt } else b) })

/-! ## POST /api/objectives/:id/allocate -/

/-- Cascade set of the objective-allocation route.  Unlike
`POST /api/transactions`, a daily target here pushes both the weekly budget
and the primary monthly budget. -/
def allocCascadeSet (s : St) (userId : Nat) (target : Budget) : List Budget :=
  [target] ++
    (match target.frequency with
     | Frequency.daily =>
       (s.findWeekly userId).toList ++ (s.findPrimaryMonthly userId).toList
     | Frequency.weekly => (s.findPrimaryMonthly userId).toList
     | Frequency.monthly => [])

/-- Mark the objective's savings: `savedAmount += amount`, `achieved` once
`savedAmount >= targetAmount`. -/
def saveObjectiveAmount (s : St) (oid : Nat) (amount : ℚ) : St :=
  { s with objectives := s.objectives.map (fun o =>
      if o.id == oid then
        let saved := o.savedAmount + amount
        { o with savedAmount := saved,
                 achieved := o.achieved || decide (o.targetAmount ≤ saved) }
      else o) }

/-- `POST /api/objectives/:id/allocate`: deduct `amount` from the budget
cascade and credit it to the objective (transactional, or conditional
fallback whose `catch` compensates and reports an internal error). -/
def allocateToObjective (txSupported : Bool) (interf : St → St) (s : St)
    (oid : Nat) (userId : Nat) (budgetId : Nat) (amount : ℚ)
    (currentDate : Date) : TxOutcome × St :=
  if amount ≤ 0 then (TxOutcome.failed TxError.validationError, s)
  else match s.objectives.find? (fun o => o.id == oid) with
  | none => (TxOutcome.failed TxError.objectiveNotFound, s)
  | some _ =>
    match s.findBudget budgetId with
    | none => (TxOutcome.failed TxError.budgetNotFound, s)
    | some budget =>
      if !(budget.userId == userId) then (TxOutcome.failed TxError.notOwner, s)
      else
        -- calculateRemainingBudget on a loaded document
        let remaining := max 0 budget.currentAmount
        if remaining < amount then (TxOutcome.failed TxError.overBudget, s)
        else
          let tx : Txn := { userId := userId, budgetId := some budgetId,
                            type := TxType.expense, amount := amount,
                            comment := "allocation vers objectif",
                            date := currentDate }
          if txSupported then
            let s0 : St := { s with transactions := s.transactions ++ [tx] }
            let toUpdate := allocCascadeSet s0 userId budget
            match checkCascade toUpdate amount with
            | Except.error e => (TxOutcome.failed e, s)  -- abortTransaction
            | Except.ok affected =>
              let s1 := applyAffected s0 affected
              let je : JEntry := { userId := userId, txType := JType.expense,
                                   amount := amount, affected := affected,
                                   ruleApplied := "allocate_to_objective" }
              let s2 : St := { s1 with journal := s1.journal ++ [je] }
              let s3 := updateDayTotals s2 userId currentDate
              (TxOutcome.created, saveObjectiveAmount s3 oid amount)
          else
            let toUpdate := allocCascadeSet s userId budget
            match checkCascade toUpdate amount with
            | Except.error e => (TxOutcome.failed e, s)
            | Except.ok affected =>
              let sRace := interf s
              match applyCondLoop sRace affected amount with
              | Except.error (sf, updated) =>
                (TxOutcome.failed TxError.internalError,
                 compensate sf updated amount)
              | Except.ok s1 =>
                let je : JEntry :=
                  { userId := userId, txType := JType.expense,
                    amount := amount, affected := affected,
                    ruleApplied := "allocate_to_objective_fallback" }
                let s2 : St := { s1 with
                                 transactions := s1.transactions ++ [tx],
                                 journal := s1.journal ++ [je] }
                let s3 := updateDayTotals s2 userId currentDate
                (TxOutcome.created, saveObjectiveAmount s3 oid amount)

/-! ## POST /api/tontines/:id/contribute -/

/-- `POST /api/tontines/:id/contribute`: credit the member and the tontine
total; when the tontine is linked to a budget, additionally append an
expense Transaction and re-run the Day rollup.  There is no day-lock check,
no negative-balance check, and no budget `currentAmount` decrement on this
path. -/
def contributeTontine (s : St) (tid : Nat) (userId : Nat) (amount : ℚ)
    (currentDate : Date) : TxOutcome × St :=
  if amount == 0 then (TxOutcome.failed TxError.validationError, s)
  else match s.tontines.find? (fun t => t.id == tid) with
  | none => (TxOutcome.failed TxError.tontineNotFound, s)
  | some tontine =>
    if !(tontine.members.any (fun m => m.userId == userId)) then
      (TxOutcome.failed TxError.notMember, s)
    else
      let s1 : St := { s with tontines := s.tontines.map (fun t =>
          if t.id == tid then
            { t with totalAmount := t.totalAmount + amount,
                     members := t.members.map (fun m =>
                       if m.userId == userId then
                         { m with contributed := m.contributed + amount }
                       else m) }
          else t) }
      match tontine.budgetId with
      | none => (TxOutcome.created, s1)
      | some bid =>
        let tx : Txn := { userId := userId, budgetId := some bid,
                          type := TxType.expense, amount := amount,
                          comment := "Tontine", date := currentDate }
        let s2 : St := { s1 with transactions := s1.transactions ++ [tx] }
        (TxOutcome.created, updateDayTotals s2 userId currentDate)

/-! ## GET /api/days/:userId (lazy Day creation) -/

/-- The lazy Day creation of `GET /api/days/:userId`: when today's record
does not exist, snapshot `initialPocket` from the latest day's
`finalPocket` (or 0), compute `budgetsAvailable`, and insert today's Day
with zero gains/expenses and `finalPocket = initialPocket`. -/
def getDaysLazyCreate (s : St) (userId : Nat) (currentDate : Date) : St :=
  match s.findDay userId currentDate with
  | some _ => s
  | none =>
    let initialPocket := lastDayFinal s userId
    let (budgetsAvailable, s1) := calculateBudgetsAvailable s userId currentDate
    { s1 with days := s1.days ++
        [{ userId := userId, date := currentDate,
           initialPocket := initialPocket,
           budgetsAvailable := budgetsAvailable, gains := 0, expenses := 0,
           finalPocket := initialPocket, locked := false }] }

/-! ## Transaction-Capability Detector and startup -/

/-- Outcomes of the individual store calls made by the startup probe. -/
structure ProbeOutcome where
  startSessionOk : Bool
  startTransactionOk : Bool
  commitOk : Bool
deriving DecidableEq

/-- `checkTransactionsSupport()`: the startup probe that sets the
process-wide `TRANSACTIONS_SUPPORTED` flag.  Faithful to the source: the
commit is awaited as `commitTransaction().catch(() => ...)`, so a commit
failure is swallowed and the flag is still set to `true`; only a
synchronous throw from `startSession`/`startTransaction` reaches a `catch`
block that sets `false`. -/
def checkTransactionsSupport (p : ProbeOutcome) : Bool :=
  if !p.startSessionOk then false
  else if !p.startTransactionOk then false
  else true

/-- Deployment environment flag (`NODE_ENV`). -/
inductive Env where
  | development
  | production
deriving DecidableEq

/-- Observable fate of the process at startup. -/
inductive ServerStatus where
  | listening
  | exited
deriving DecidableEq

/-- `startServer()`: connect, create indexes, `app.listen`.  Faithful to the
source, nothing between the connection and `app.listen` consults
`TRANSACTIONS_SUPPORTED` or `NODE_ENV` to refuse startup; the only exit is
a failed connection. -/
def startServer (_env : Env) (_txSupported : Bool) (connectOk : Bool) :
    ServerStatus :=
  if connectOk then ServerStatus.listening else ServerStatus.exited

/-- The production guard the server registers with
`process.on('beforeExit', ...)`: returns `true` when it would call
`process.exit(1)`.  Node fires `beforeExit` only once the event loop is
about to empty — never while `app.listen` keeps the server alive — so this
guard cannot run before traffic is served. -/
def beforeExitGuard (env : Env) (txSupported : Bool) : Bool :=
  env == Env.production && !txSupported

/-! ## The non-negativity invariant and concrete stores -/

/-- The central ledger invariant: no budget's `currentAmount` is negative. -/
def Inv (s : St) : Prop := ∀ b ∈ s.budgets, 0 ≤ b.currentAmount
/-- Concrete store used by the invariant witness: the canonical
monthly/weekly/daily hierarchy of a single user. -/
def stInvWitness : St :=
  { budgets :=
      [ { id := 1, userId := 1, name := "mensuel", amount := 400000,
          frequency := Frequency.monthly, isPrimary := true,
          initialAmount := 400000, currentAmount := 400000 },
        { id := 2, userId := 1, name := "semaine", amount := 100000,
          frequency := Frequency.weekly, isPrimary := false,
          initialAmount := 100000, currentAmount := 2000 },
        { id := 3, userId := 1, name := "jour", amount := 14285,
          frequency := Frequency.daily, isPrimary := false,
          initialAmount := 14285, currentAmount := 1000 } ],
    transactions := [], days := [], journal := [], objectives := [],
    tontines := [] }
/-- Concrete store for the C5 witness: a weekly (id 2) and a daily (id 3)
budget, both with balance 100. -/
def stC5 : St :=
  { budgets :=
      [ { id := 2, userId := 1, name := "semaine", amount := 100,
          frequency := Frequency.weekly, isPrimary := false,
          initialAmount := 100, currentAmount := 100 },
        { id := 3, userId := 1, name := "jour", amount := 100,
          frequency := Frequency.daily, isPrimary := false,
          initialAmount := 100, currentAmount := 100 } ],
    transactions := [], days := [], journal := [], objectives := [],
    tontines := [] }
/-- The concurrent write of the C5 witness: between the availability
snapshot and the conditional updates, another request drops the weekly
budget's balance to 50, below the posted amount 80. -/
def interfC5 : St → St := fun t => t.setCur 2 50
/-- The state at which the C5 witness's conditional-update loop fails: the
interference has landed and the daily budget is already decremented. -/
def sfC5 : St :=
  { budgets :=
      [ { id := 2, userId := 1, name := "semaine", amount := 100,
          frequency := Frequency.weekly, isPrimary := false,
          initialAmount := 100, currentAmount := 50 },
        { id := 3, userId := 1, name := "jour", amount := 100,
          frequency := Frequency.daily, isPrimary := false,
          initialAmount := 100, currentAmount := 20 } ],
    transactions := [], days := [], journal := [], objectives := [],
    tontines := [] }
/-- Store for the C7 counterexample: the user's primary monthly budget has
`initialAmount = 100` while this month's expense transactions sum to 200. -/
def stC7 : St :=
  { budgets :=
      [ { id := 1, userId := 1, name := "mensuel", amount := 100,
          frequency := Frequency.monthly, isPrimary := true,
          initialAmount := 100, currentAmount := 100 } ],
    transactions :=
      [ { userId := 1, budgetId := some 1, type := TxType.expense,
          amount := 200, comment := "grosse", date := ⟨202501, 2⟩ } ],
    days := [], journal := [], objectives := [], tontines := [] }
/-- Store for the C8 scenario: a lone primary monthly budget with
`initialAmount = 400000`. -/
def stC8 : St :=
  { budgets :=
      [ { id := 1, userId := 1, name := "Salaire", amount := 400000,
          frequency := Frequency.monthly, isPrimary := true,
          initialAmount := 400000, currentAmount := 400000 } ],
    transactions := [], days := [], journal := [], objectives := [],
    tontines := [] }
/-- The C8 store after the boundary-valid weekly budget of 100000 exists. -/
def stC8w : St :=
  { stC8 with budgets := stC8.budgets ++
      [ { id := 2, userId := 1, name := "Semaine", amount := 100000,
          frequency := Frequency.weekly, isPrimary := false,
          initialAmount := 100000, currentAmount := 100000 } ] }
/-- Canonical single-user budget hierarchy with symbolic balances: primary
monthly budget (id 1, baseline `M`, stored balance `m`), weekly budget
(id 2, balance `w`), daily budget (id 3, balance `dd`); no prior
transactions, days, journal entries, objectives or tontines. -/
def hierSt (M m w dd : ℚ) : St :=
  { budgets :=
      [ { id := 1, userId := 1, name := "mensuel", amount := M,
          frequency := Frequency.monthly, isPrimary := true,
          initialAmount := M, currentAmount := m },
        { id := 2, userId := 1, name := "semaine", amount := M / 4,
          frequency := Frequency.weekly, isPrimary := false,
          initialAmount := M / 4, currentAmount := w },
        { id := 3, userId := 1, name := "jour", amount := M / 28,
          frequency := Frequency.daily, isPrimary := false,
          initialAmount := M / 28, currentAmount := dd } ],
    transactions := [], days := [], journal := [], objectives := [],
    tontines := [] }
/-- The date used by the concrete-family theorems. -/
def dateW : Date := ⟨202501, 5⟩
/-- Store for C3's first counterexample: a daily budget (id 3) with balance
100 whose weekly parent (id 2) holds only 50. -/
def stC3a : St :=
  { budgets :=
      [ { id := 2, userId := 1, name := "semaine", amount := 100,
          frequency := Frequency.weekly, isPrimary := false,
          initialAmount := 100, currentAmount := 50 },
        { id := 3, userId := 1, name := "jour", amount := 100,
          frequency := Frequency.daily, isPrimary := false,
          initialAmount := 100, currentAmount := 100 } ],
    transactions := [], days := [], journal := [], objectives := [],
    tontines := [] }
/-- Store with a drifted primary monthly budget: `initialAmount = 1000`
but `currentAmount = 750` (as left, e.g., by a weekly-budget allocation,
which decrements the primary without recording any Transaction). -/
def stDrift : St :=
  { budgets :=
      [ { id := 1, userId := 1, name := "mensuel", amount := 1000,
          frequency := Frequency.monthly, isPrimary := true,
          initialAmount := 1000, currentAmount := 750 } ],
    transactions := [], days := [], journal := [], objectives := [],
    tontines := [] }
/-- The empty store. -/
def stEmpty : St :=
  { budgets := [], transactions := [], days := [], journal := [],
    objectives := [], tontines := [] }
/-- Store after a first gain of 100 posted on the empty store. -/
def c4MidSt : St :=
  (postTransaction true id stEmpty 7 TxType.gain 100 "premier" 99 dateW).2
/-- Store for the tontine-contribution claims: a primary monthly budget
(id 1, baseline `M`, stored balance `m`), a weekly budget (id 2, balance
`w`) to which tontine 5 is linked, one member (user 1, contributed `c0`),
and tontine total `t0`. -/
def tontSt (M m w c0 t0 : ℚ) : St :=
  { budgets :=
      [ { id := 1, userId := 1, name := "mensuel", amount := M,
          frequency := Frequency.monthly, isPrimary := true,
          initialAmount := M, currentAmount := m },
        { id := 2, userId := 1, name := "semaine", amount := M / 4,
          frequency := Frequency.weekly, isPrimary := false,
          initialAmount := M / 4, currentAmount := w } ],
    transactions := [], days := [], journal := [], objectives := [],
    tontines :=
      [ { id := 5, name := "T", contributionAmount := 100,
          budgetId := some 2, totalAmount := t0,
          members := [⟨1, c0, 1⟩] } ] }

/-! ## Theorems -/

lemma Inv_of_budgets_eq {s s' : St} (h : s'.budgets = s.budgets) (hs : Inv s) :
    Inv s' := by
  intro b hb
  exact hs b (h ▸ hb)

lemma Inv_setCur {s : St} (hs : Inv s) {v : ℚ} (hv : 0 ≤ v) (id : Nat) :
    Inv (s.setCur id v) := by
  intro b hb
  simp only [St.setCur, List.mem_map] at hb
  obtain ⟨a, ha, rfl⟩ := hb
  split
  · exact hv
  · exact hs a ha

lemma Inv_incCur {s : St} (hs : Inv s) {amt : ℚ} (ha : 0 ≤ amt) (id : Nat) :
    Inv (s.incCur id amt) := by
  intro b hb
  simp only [St.incCur, List.mem_map] at hb
  obtain ⟨a, ha', rfl⟩ := hb
  split
  · exact add_nonneg (hs a ha') ha
  · exact hs a ha'

lemma Inv_condDecOne {s s' : St} (hs : Inv s) {id : Nat} {amt : ℚ}
    (h : s.condDecOne id amt = some s') : Inv s' := by
  unfold St.condDecOne at h
  split at h
  · injection h with h
    subst h
    intro b hb
    simp only [List.mem_map] at hb
    obtain ⟨a, ha, rfl⟩ := hb
    split
    · next hcond =>
      rw [Bool.and_eq_true] at hcond
      have := of_decide_eq_true hcond.2
      simpa using this
    · exact hs a ha
  · exact absurd h (by simp)

lemma checkCascade_ok_nonneg {l : List Budget} {amt : ℚ}
    {aff : List AffectedEntry} (h : checkCascade l amt = Except.ok aff) :
    ∀ a ∈ aff, 0 ≤ a.after := by
  induction l generalizing aff with
  | nil =>
    rw [checkCascade] at h
    injection h with h
    subst h
    intro a ha
    exact absurd ha (by simp)
  | cons b rest ih =>
    rw [checkCascade] at h
    split at h
    · exact absurd h (by simp)
    · next hneg =>
      split at h
      · next l' hrec =>
        injection h with h
        subst h
        intro a ha
        rcases List.mem_cons.mp ha with rfl | hmem
        · simpa using not_lt.mp hneg
        · exact ih hrec a hmem
      · exact absurd h (by simp)

lemma Inv_applyAffected {l : List AffectedEntry} {s : St} (hs : Inv s)
    (hl : ∀ a ∈ l, 0 ≤ a.after) : Inv (applyAffected s l) := by
  induction l generalizing s with
  | nil => exact hs
  | cons a rest ih =>
    simp only [applyAffected, List.foldl_cons] at *
    exact ih (Inv_setCur hs (hl a (by simp)) a.budgetId)
      (fun x hx => hl x (by simp [hx]))

lemma Inv_calculateBudgetsAvailable {s : St} (hs : Inv s) (u : Nat)
    (d : Date) : Inv (calculateBudgetsAvailable s u d).2 := by
  unfold calculateBudgetsAvailable
  cases hp : s.findPrimaryMonthly u with
  | none => exact hs
  | some primary =>
    simp only
    split
    · intro b hb
      simp only [St.setCur, List.mem_map] at hb
      obtain ⟨a, ha, rfl⟩ := hb
      split
      · exact le_max_left 0 _
      · exact hs a ha
    · exact hs

lemma Inv_upsertDay {s : St} (hs : Inv s) (u : Nat) (dt : Date)
    (ip ba g e fp : ℚ) : Inv (upsertDay s u dt ip ba g e fp) := by
  unfold upsertDay
  split
  · exact Inv_of_budgets_eq rfl hs
  · exact Inv_of_budgets_eq rfl hs

lemma Inv_updateDayTotals {s : St} (hs : Inv s) (u : Nat) (d : Date) :
    Inv (updateDayTotals s u d) := by
  unfold updateDayTotals
  have h := Inv_calculateBudgetsAvailable hs u d
  cases hEq : calculateBudgetsAvailable s u d with
  | mk ba s1 =>
    rw [hEq] at h
    simp only [hEq]
    exact Inv_upsertDay h u d _ _ _ _ _

lemma Inv_applyCondLoop {entries : List AffectedEntry} {s : St} (hs : Inv s)
    {amt : ℚ} :
    (∀ s', applyCondLoop s entries amt = Except.ok s' → Inv s') ∧
    (∀ sf upd, applyCondLoop s entries amt = Except.error (sf, upd) →
      Inv sf) := by
  induction entries generalizing s with
  | nil =>
    refine ⟨fun s' h => ?_, fun sf upd h => ?_⟩
    · rw [applyCondLoop] at h
      injection h with h
      exact h ▸ hs
    · rw [applyCondLoop] at h
      exact absurd h (by simp)
  | cons a rest ih =>
    refine ⟨fun s' h => ?_, fun sf upd h => ?_⟩
    · rw [applyCondLoop] at h
      split at h
      · exact absurd h (by simp)
      · next s1 hc =>
        have hs1 := Inv_condDecOne hs hc
        split at h
        · next hrec =>
          injection h with h
          exact h ▸ (ih hs1).1 _ hrec
        · exact absurd h (by simp)
    · rw [applyCondLoop] at h
      split at h
      · injection h with h
        rw [Prod.mk.injEq] at h
        obtain ⟨rfl, rfl⟩ := h
        exact hs
      · next s1 hc =>
        have hs1 := Inv_condDecOne hs hc
        split at h
        · exact absurd h (by simp)
        · next sf' upd' hrec =>
          injection h with h
          rw [Prod.mk.injEq] at h
          obtain ⟨rfl, rfl⟩ := h
          exact (ih hs1).2 _ _ hrec

lemma Inv_compensate {upd : List Nat} {s : St} (hs : Inv s) {amt : ℚ}
    (ha : 0 ≤ amt) : Inv (compensate s upd amt) := by
  induction upd generalizing s with
  | nil => exact hs
  | cons id rest ih =>
    simp only [compensate, List.foldl_cons] at *
    exact ih (Inv_incCur hs ha id)

lemma Inv_appendBudget {s : St} (hs : Inv s) {b : Budget}
    (hb : 0 ≤ b.currentAmount) :
    Inv { s with budgets := s.budgets ++ [b] } := by
  intro x hx
  rcases List.mem_append.mp hx with h | h
  · exact hs x h
  · rw [List.mem_singleton] at h
    subst h
    exact hb

lemma Inv_postTxTransactional {s : St} (hs : Inv s) (u : Nat) (ty : TxType)
    (amount : ℚ) (c : String) (bid : Nat) (d : Date) :
    Inv (postTxTransactional s u ty amount c bid d).2 := by
  unfold postTxTransactional
  cases ty with
  | expense =>
    simp only
    split
    · exact hs
    · next targetBudget hfind =>
      split
      · exact hs
      · next affected hchk =>
        apply Inv_updateDayTotals
        apply Inv_of_budgets_eq rfl
        exact Inv_applyAffected (Inv_of_budgets_eq rfl hs)
          (checkCascade_ok_nonneg hchk)
  | gain =>
    simp only
    apply Inv_updateDayTotals
    exact Inv_of_budgets_eq rfl hs

lemma Inv_postTxFallbackExpense {s : St} (hs : Inv s) {interf : St → St}
    (hint : ∀ t, Inv t → Inv (interf t)) (u : Nat) {amount : ℚ}
    (hamt : 0 ≤ amount) (c : String) (bid : Nat) (d : Date) :
    Inv (postTxFallbackExpense interf s u amount c bid d).2 := by
  unfold postTxFallbackExpense
  split
  · exact hs
  · next target hfind =>
    dsimp only
    split
    · exact hs
    · next affected hchk =>
      have hrace := hint s hs
      split
      · next sf updated hloop =>
        exact Inv_compensate ((Inv_applyCondLoop hrace).2 _ _ hloop) hamt
      · next s1 hloop =>
        apply Inv_updateDayTotals
        have h1 := (Inv_applyCondLoop hrace).1 s1 hloop
        exact Inv_of_budgets_eq rfl h1

lemma Inv_postTxFallbackGain {s : St} (hs : Inv s) (u : Nat) (amount : ℚ)
    (c : String) (bid : Nat) (d : Date) :
    Inv (postTxFallbackGain s u amount c bid d).2 := by
  unfold postTxFallbackGain
  apply Inv_updateDayTotals
  exact Inv_of_budgets_eq rfl hs

lemma Inv_postTransaction {s : St} (hs : Inv s) (txSupported : Bool)
    {interf : St → St} (hint : ∀ t, Inv t → Inv (interf t)) (u : Nat)
    (ty : TxType) (amount : ℚ) (c : String) (bid : Nat) (d : Date) :
    Inv (postTransaction txSupported interf s u ty amount c bid d).2 := by
  unfold postTransaction
  split
  · exact hs
  · split
    · exact hs
    · split
      · exact hs
      · split
        · exact Inv_postTxTransactional hs u ty amount c bid d
        · next hpos _ _ _ =>
          cases ty with
          | expense =>
            exact Inv_postTxFallbackExpense hs hint u
              (le_of_lt (lt_of_not_le hpos)) c bid d
          | gain => exact Inv_postTxFallbackGain hs u amount c bid d

lemma Inv_createBudget {s : St} (hs : Inv s) (txSupported : Bool)
    {interf : St → St} (hint : ∀ t, Inv t → Inv (interf t)) (u newId : Nat)
    (name : String) (amount : ℚ) (freq : Frequency) (isPrim : Bool) :
    Inv (createBudget txSupported interf s u newId name amount freq isPrim).2 := by
  unfold createBudget
  split
  · exact hs
  · next hpos =>
    have hamt : 0 ≤ amount := le_of_lt (lt_of_not_le hpos)
    split
    · exact hs
    · split
      · exact hs
      · split
        · exact hs
        · split
          · split
            · split
              · exact hs
              · next primary hfind =>
                dsimp only
                split
                · exact hs
                · next hneg =>
                  apply Inv_of_budgets_eq rfl
                  exact Inv_setCur (Inv_appendBudget hs hamt)
                    (not_lt.mp hneg) primary.id
            · split
              · exact hs
              · next primary hfind =>
                dsimp only
                split
                · exact hs
                · next hneg =>
                  split
                  · exact hint s hs
                  · next s1 hcond =>
                    apply Inv_of_budgets_eq rfl
                    exact Inv_appendBudget
                      (Inv_condDecOne (hint s hs) hcond) hamt
          · exact Inv_appendBudget hs hamt

lemma Inv_editBudget {s : St} (hs : Inv s) (id : Nat) (nn : Option String)
    (na : Option ℚ) : Inv (editBudget s id nn na).2 := by
  unfold editBudget
  split
  · exact hs
  · next budget hfind =>
    simp only
    split
    · intro b hb
      simp only [List.mem_map] at hb
      obtain ⟨a, ha, rfl⟩ := hb
      split
      · exact hs a ha
      · exact hs a ha
    · split
      · exact hs
      · split
        · exact hs
        · split
          · exact hs
          · intro b hb
            simp only [List.mem_map] at hb
            obtain ⟨a, ha, rfl⟩ := hb
            split
            · exact hs a ha
            · exact hs a ha

lemma Inv_allocateToObjective {s : St} (hs : Inv s) (txSupported : Bool)
    {interf : St → St} (hint : ∀ t, Inv t → Inv (interf t)) (oid u bid : Nat)
    (amount : ℚ) (d : Date) :
    Inv (allocateToObjective txSupported interf s oid u bid amount d).2 := by
  unfold allocateToObjective
  split
  · exact hs
  · next hpos =>
    have hamt : 0 ≤ amount := le_of_lt (lt_of_not_le hpos)
    split
    · exact hs
    · split
      · exact hs
      · next budget hfind =>
        split
        · exact hs
        · dsimp only
          split
          · exact hs
          · split
            · split
              · exact hs
              · next affected hchk =>
                apply Inv_of_budgets_eq rfl
                apply Inv_updateDayTotals
                apply Inv_of_budgets_eq rfl
                exact Inv_applyAffected (Inv_of_budgets_eq rfl hs)
                  (checkCascade_ok_nonneg hchk)
            · split
              · exact hs
              · next affected hchk =>
                split
                · next sf updated hloop =>
                  exact Inv_compensate
                    ((Inv_applyCondLoop (hint s hs)).2 _ _ hloop) hamt
                · next s1 hloop =>
                  apply Inv_of_budgets_eq rfl
                  apply Inv_updateDayTotals
                  have h1 := (Inv_applyCondLoop (hint s hs)).1 s1 hloop
                  exact Inv_of_budgets_eq rfl h1

/-- C1: every exposed ledger operation — expense posting in transactional
mode, expense posting in fallback mode, gain posting, budget creation and
amount edit, objective allocation, and the availability reconciliation —
preserves the invariant `currentAmount >= 0` on every budget: a negative
balance is never observable, even immediately after a rejected request
(rejections either leave the store untouched or fully compensate partial
fallback updates).  Concurrent interference (`interf`) is assumed itself to
respect the invariant. -/
theorem c1_operations_preserve_nonnegative_balances
    (s : St) (hInv : Inv s) (txSupported : Bool) (interf : St → St)
    (hInterf : ∀ t, Inv t → Inv (interf t))
    (userId budgetId newId oid : Nat) (ty : TxType) (amount : ℚ)
    (comment name : String) (freq : Frequency) (isPrim : Bool)
    (newName : Option String) (newAmount : Option ℚ) (d : Date) :
    Inv (postTransaction txSupported interf s userId ty amount comment
      budgetId d).2 ∧
    Inv (createBudget txSupported interf s userId newId name amount freq
      isPrim).2 ∧
    Inv (editBudget s budgetId newName newAmount).2 ∧
    Inv (allocateToObjective txSupported interf s oid userId budgetId amount
      d).2 ∧
    Inv (calculateBudgetsAvailable s userId d).2 :=
  ⟨Inv_postTransaction hInv txSupported hInterf userId ty amount comment
      budgetId d,
   Inv_createBudget hInv txSupported hInterf userId newId name amount freq
      isPrim,
   Inv_editBudget hInv budgetId newName newAmount,
   Inv_allocateToObjective hInv txSupported hInterf oid userId budgetId
      amount d,
   Inv_calculateBudgetsAvailable hInv userId d⟩

/-! ## C1 witness state -/

/-- Witness for C1: the invariant hypotheses hold at a concrete store and
the preservation theorem applies there. -/
theorem c1_operations_preserve_nonnegative_balances_witness :
    Inv stInvWitness ∧
    (Inv (postTransaction true id stInvWitness 1 TxType.expense 100 "w"
        3 ⟨202501, 5⟩).2 ∧
     Inv (createBudget true id stInvWitness 1 10 "n" 100
        Frequency.monthly false).2 ∧
     Inv (editBudget stInvWitness 3 none none).2 ∧
     Inv (allocateToObjective true id stInvWitness 20 1 3 100 ⟨202501, 5⟩).2 ∧
     Inv (calculateBudgetsAvailable stInvWitness 1 ⟨202501, 5⟩).2) :=
  ⟨by unfold Inv; decide,
   c1_operations_preserve_nonnegative_balances stInvWitness
     (by unfold Inv; decide) true
     id (fun t ht => ht) 1 3 10 20 TxType.expense 100 "w" "n"
     Frequency.monthly false none none ⟨202501, 5⟩⟩

/-! ## Compensation restores the pre-operation state (C5) -/

lemma map_eq_self_of_forall {α : Type} {f : α → α} {l : List α}
    (h : ∀ a ∈ l, f a = a) : l.map f = l := by
  induction l with
  | nil => rfl
  | cons a rest ih =>
    simp only [List.map_cons, h a (by simp)]
    rw [ih (fun x hx => h x (by simp [hx]))]

lemma incCur_incCur_comm (s : St) (a b : Nat) (x y : ℚ) :
    (s.incCur a x).incCur b y = (s.incCur b y).incCur a x := by
  unfold St.incCur
  simp only [List.map_map]
  congr 1
  apply List.map_congr_left
  intro bud _
  by_cases ha : bud.id == a <;> by_cases hb : bud.id == b <;>
    simp [Function.comp, ha, hb, add_right_comm]

lemma compensate_incCur (s : St) (upd : List Nat) (a : Nat) (x amt : ℚ) :
    compensate (s.incCur a x) upd amt = (compensate s upd amt).incCur a x := by
  induction upd generalizing s with
  | nil => rfl
  | cons id rest ih =>
    simp only [compensate, List.foldl_cons] at *
    rw [incCur_incCur_comm]
    exact ih _

lemma condDecOne_budget_ids {s s1 : St} {id : Nat} {amt : ℚ}
    (h : s.condDecOne id amt = some s1) :
    s1.budgets.map Budget.id = s.budgets.map Budget.id := by
  unfold St.condDecOne at h
  split at h
  · injection h with h
    subst h
    simp only [List.map_map]
    apply List.map_congr_left
    intro bud _
    by_cases hc : (bud.id == id && decide (amt ≤ bud.currentAmount)) <;>
      simp [Function.comp, hc]
  · exact absurd h (by simp)

lemma condDecOne_incCur_undo {s s1 : St} {id : Nat} {amt : ℚ}
    (hnd : (s.budgets.map Budget.id).Nodup)
    (h : s.condDecOne id amt = some s1) : s1.incCur id amt = s := by
  unfold St.condDecOne at h
  split at h
  · next hany =>
    injection h with h
    subst h
    unfold St.incCur
    simp only [List.map_map]
    have hmap : s.budgets.map
        ((fun b => if b.id == id then
            { b with currentAmount := b.currentAmount + amt } else b) ∘
         (fun b => if b.id == id && decide (amt ≤ b.currentAmount) then
            { b with currentAmount := b.currentAmount - amt } else b)) =
        s.budgets := by
      apply map_eq_self_of_forall
      intro b hb
      rcases List.any_eq_true.mp hany with ⟨b0, hb0, hcond⟩
      rw [Bool.and_eq_true] at hcond
      by_cases hid : b.id = id
      · have hbb0 : b = b0 :=
          List.inj_on_of_nodup_map hnd hb hb0
            (by rw [hid, eq_of_beq hcond.1])
        have hle : amt ≤ b.currentAmount := by
          rw [hbb0]; exact of_decide_eq_true hcond.2
        have hbeq : (b.id == id) = true := beq_iff_eq.mpr hid
        simp [Function.comp, hbeq, decide_eq_true hle]
      · have hbeq : (b.id == id) = false := beq_eq_false_iff_ne.mpr hid
        simp [Function.comp, hbeq]
    rw [hmap]
  · exact absurd h (by simp)

lemma applyCondLoop_error_restore {entries : List AffectedEntry} {s sf : St}
    {amt : ℚ} {upd : List Nat}
    (hnd : (s.budgets.map Budget.id).Nodup)
    (h : applyCondLoop s entries amt = Except.error (sf, upd)) :
    compensate sf upd amt = s := by
  induction entries generalizing s sf upd with
  | nil =>
    rw [applyCondLoop] at h
    exact absurd h (by simp)
  | cons a rest ih =>
    rw [applyCondLoop] at h
    split at h
    · injection h with h
      rw [Prod.mk.injEq] at h
      obtain ⟨rfl, rfl⟩ := h
      rfl
    · next s1 hc =>
      split at h
      · exact absurd h (by simp)
      · next sf' upd' hrec =>
        injection h with h
        rw [Prod.mk.injEq] at h
        obtain ⟨rfl, rfl⟩ := h
        have hnd1 : (s1.budgets.map Budget.id).Nodup := by
          rw [condDecOne_budget_ids hc]; exact hnd
        calc compensate sf' (a.budgetId :: upd') amt
            = compensate (sf'.incCur a.budgetId amt) upd' amt := rfl
          _ = (compensate sf' upd' amt).incCur a.budgetId amt := by
              rw [compensate_incCur]
          _ = s1.incCur a.budgetId amt := by rw [ih hnd1 hrec]
          _ = s := condDecOne_incCur_undo hnd hc

/-- C5: in fallback (non-transactional) mode, when a conditional per-budget
update of the expense cascade fails, every previously-applied decrement is
compensated by adding the amount back — the final store is exactly the
(interfered) pre-apply store, so no Transaction and no JournalEntry of the
failed operation remains — and the caller receives the concurrency-conflict
error, HTTP 409, a distinct kind from the negative-balance validation
error, HTTP 400. -/
theorem c5_fallback_conflict_fully_compensates
    (s : St) (interf : St → St) (u : Nat) (amount : ℚ) (c : String)
    (bid : Nat) (d : Date) (target : Budget) (affected : List AffectedEntry)
    (sf : St) (upd : List Nat)
    (hpos : 0 < amount)
    (hlock : (s.findDay u d).any DayRec.locked = false)
    (hnd : ((interf s).budgets.map Budget.id).Nodup)
    (hfind : s.findBudget bid = some target)
    (hchk : checkCascade (cascadeSet s u target) amount = Except.ok affected)
    (hloop : applyCondLoop (interf s) affected amount =
      Except.error (sf, upd)) :
    postTransaction false interf s u TxType.expense amount c bid d =
      (TxOutcome.failed TxError.conflict, interf s) ∧
    compensate sf upd amount = interf s ∧
    TxError.conflict.httpStatus = 409 ∧
    (∀ nm af, (TxError.negativeBalance nm af).httpStatus = 400 ∧
      TxError.conflict ≠ TxError.negativeBalance nm af) := by
  have hrest := applyCondLoop_error_restore hnd hloop
  refine ⟨?_, hrest, rfl, fun nm af => ⟨rfl, by simp⟩⟩
  unfold postTransaction
  rw [if_neg (not_le.mpr hpos), hlock]
  simp only [Bool.false_eq_true, if_false, hfind, Option.isNone_some,
    Bool.and_false, Bool.true_and, Bool.and_self]
  unfold postTxFallbackExpense
  simp only [hfind, hchk, hloop, hrest]

/-- Witness for C5: the compensation theorem applies at a concrete raced
expense of 80 against the daily budget. -/
theorem c5_fallback_conflict_fully_compensates_witness :
    postTransaction false interfC5 stC5 1 TxType.expense 80 "w" 3
        ⟨202501, 5⟩ =
      (TxOutcome.failed TxError.conflict, interfC5 stC5) :=
  (c5_fallback_conflict_fully_compensates stC5 interfC5 1 80 "w" 3
    ⟨202501, 5⟩
    { id := 3, userId := 1, name := "jour", amount := 100,
      frequency := Frequency.daily, isPrimary := false,
      initialAmount := 100, currentAmount := 100 }
    [⟨3, 100, 20⟩, ⟨2, 100, 20⟩] sfC5 [3]
    (by norm_num) (by rfl) (by decide) (by rfl)
    (by norm_num [checkCascade, cascadeSet, stC5, St.findWeekly])
    (by norm_num [applyCondLoop, St.condDecOne, interfC5, St.setCur, stC5,
          sfC5])).1

/-! ## Boolean-equality reduction lemmas for the derived enums -/

@[simp] lemma frequencyBeqDecide (a b : Frequency) :
    (a == b) = decide (a = b) := rfl

@[simp] lemma txTypeBeqDecide (a b : TxType) :
    (a == b) = decide (a = b) := rfl

@[simp] lemma jTypeBeqDecide (a b : JType) :
    (a == b) = decide (a = b) := rfl

@[simp] lemma dateBeqDecide (a b : Date) :
    (a == b) = decide (a = b) := rfl

@[simp] lemma validationBeqDecide (a b : Validation) :
    (a == b) = decide (a = b) := rfl

@[simp] lemma txOutcomeBeqDecide (a b : TxOutcome) :
    (a == b) = decide (a = b) := rfl

/-! ## C9: capability probe and production guard -/

/-- C9 (code bug, evaluated at the failing configuration): on a store whose
transaction commit fails (no multi-document transaction capability), the
startup probe still reports support, because the commit error is swallowed
by `.catch(() => ...)`; and `startServer` reaches `app.listen` — serves
traffic — in a production deployment regardless of the capability flag.
The only production enforcement is `beforeExitGuard`, which is registered
on `process.on('beforeExit')` and therefore cannot run before the server
starts serving. -/
theorem c9_production_without_transactions_still_serves :
    checkTransactionsSupport ⟨true, true, false⟩ = true ∧
    startServer Env.production false true = ServerStatus.listening ∧
    startServer Env.production
        (checkTransactionsSupport ⟨true, true, false⟩) true =
      ServerStatus.listening ∧
    beforeExitGuard Env.production false = true :=
  ⟨rfl, rfl, rfl, rfl⟩

/-! ## C7: the availability reconciler -/

/-- Counterexample to C7 as stated: the reconciler does not compute
`initialAmount - sum(this month's expenses)` — it clamps at zero (and
rounds to two decimals).  Here `initialAmount - sum = -100`, yet the
computed available figure is `0`, and `0` is also what `currentAmount` is
overwritten with. -/
theorem c7_counterexample_clamped_at_zero :
    (stC7.findPrimaryMonthly 1).map Budget.initialAmount = some 100 ∧
    monthExpenses stC7 1 202501 = 200 ∧
    (100 : ℚ) - monthExpenses stC7 1 202501 = -100 ∧
    (calculateBudgetsAvailable stC7 1 ⟨202501, 5⟩).1 = 0 ∧
    (calculateBudgetsAvailable stC7 1 ⟨202501, 5⟩).1 ≠
      (100 : ℚ) - monthExpenses stC7 1 202501 := by
  refine ⟨rfl, ?_, ?_, ?_, ?_⟩
  · norm_num [monthExpenses, stC7]
  · norm_num [monthExpenses, stC7]
  · norm_num [calculateBudgetsAvailable, stC7, St.findPrimaryMonthly,
      monthExpenses, jsOr, round2, round_eq]
  · norm_num [calculateBudgetsAvailable, stC7, St.findPrimaryMonthly,
      monthExpenses, jsOr, round2, round_eq]

/-- C7 as amended: the availability reconciler computes the
available-this-month figure as `max 0` of `base - sum(month's expenses)`
rounded to two decimals (`base` falling back through
`initialAmount || amount || currentAmount`), and exactly when this figure
differs from the stored primary `currentAmount` by more than `0.01` it
overwrites `currentAmount` with the computed figure and appends one
`adjustment` JournalEntry with `ruleApplied =
"reconcile_primary_current_amount"` recording before and after; otherwise
the store is untouched. -/
theorem c7_reconciler_formula_and_selfheal
    (s : St) (u : Nat) (d : Date) (p : Budget)
    (hp : s.findPrimaryMonthly u = some p) :
    (calculateBudgetsAvailable s u d).1 =
      max 0 (round2 (jsOr p.initialAmount
        (jsOr p.amount (jsOr p.currentAmount 0)) - monthExpenses s u d.ym)) ∧
    (|p.currentAmount - (calculateBudgetsAvailable s u d).1| ≤ 1/100 →
      (calculateBudgetsAvailable s u d).2 = s) ∧
    (1/100 < |p.currentAmount - (calculateBudgetsAvailable s u d).1| →
      (calculateBudgetsAvailable s u d).2 =
        { s.setCur p.id (calculateBudgetsAvailable s u d).1 with
          journal := s.journal ++
            [{ userId := u, txType := JType.adjustment,
               amount := round2 ((calculateBudgetsAvailable s u d).1 -
                 p.currentAmount),
               affected := [⟨p.id, p.currentAmount,
                 (calculateBudgetsAvailable s u d).1⟩],
               ruleApplied := "reconcile_primary_current_amount" }] }) := by
  have h1 : (calculateBudgetsAvailable s u d).1 =
      max 0 (round2 (jsOr p.initialAmount
        (jsOr p.amount (jsOr p.currentAmount 0)) - monthExpenses s u d.ym)) := by
    unfold calculateBudgetsAvailable
    rw [hp]
    dsimp only
    split <;> rfl
  refine ⟨h1, ?_, ?_⟩
  · intro hle
    rw [h1] at hle
    unfold calculateBudgetsAvailable
    rw [hp]
    dsimp only
    rw [if_neg (not_lt.mpr hle)]
  · intro hgt
    rw [h1] at hgt
    conv_lhs => rw [calculateBudgetsAvailable]
    rw [hp]
    dsimp only
    rw [if_pos hgt, h1]
    rfl

/-- Witness for C7's amended theorem: at `stC7` the drift `|100 - 0|`
exceeds the tolerance, so the self-heal fires. -/
theorem c7_reconciler_formula_and_selfheal_witness :
    (calculateBudgetsAvailable stC7 1 ⟨202501, 5⟩).1 =
      max 0 (round2 (jsOr 100 (jsOr 100 (jsOr 100 0)) -
        monthExpenses stC7 1 202501)) :=
  (c7_reconciler_formula_and_selfheal stC7 1 ⟨202501, 5⟩
    { id := 1, userId := 1, name := "mensuel", amount := 100,
      frequency := Frequency.monthly, isPrimary := true,
      initialAmount := 100, currentAmount := 100 } rfl).1

/-! ## C8: the budget hierarchy validator scenario -/

/-- C8: the hierarchy validator enforces `amount > 0`, and on the literal
scenario — primary monthly budget of initial amount 400000 — a weekly
budget of 100000 is boundary-valid, an amount-edit of the weekly budget to
100001 is rejected with the hierarchy-cap message (as is a direct
validation at 100001), a daily budget of 14285 is accepted, and a daily
budget of 14286 is rejected by the monthly/28 cap. -/
theorem c8_hierarchy_validator_scenario (a : ℚ) (f : Frequency)
    (ha : a ≤ 0) :
    validateBudgetHierarchy stC8 1 f a =
      Validation.invalid ValidationMsg.notPositive ∧
    validateBudgetHierarchy stC8 1 Frequency.weekly 100000 =
      Validation.valid ∧
    validateBudgetHierarchy stC8 1 Frequency.weekly 100001 =
      Validation.invalid (ValidationMsg.weeklyCap 100000) ∧
    validateBudgetHierarchy stC8w 1 Frequency.daily 14285 =
      Validation.valid ∧
    validateBudgetHierarchy stC8w 1 Frequency.daily 14286 =
      Validation.invalid (ValidationMsg.dailyCapMonthly 14285) ∧
    editBudget stC8w 2 none (some 100001) =
      (TxOutcome.failed TxError.validationError, stC8w) ∧
    (editBudget stC8w 2 none (some 100000)).1 = TxOutcome.created := by
  refine ⟨?_, ?_, ?_, ?_, ?_, ?_, ?_⟩
  · unfold validateBudgetHierarchy
    rw [if_pos ha]
  · norm_num [validateBudgetHierarchy, stC8, St.findPrimaryMonthly,
      primaryBase, jsOr]
  · norm_num [validateBudgetHierarchy, stC8, St.findPrimaryMonthly,
      primaryBase, jsOr]
  · simp +decide [validateBudgetHierarchy, stC8w, stC8,
      St.findPrimaryMonthly, St.findWeekly, primaryBase, weeklyBase, jsOr,
      List.find?_cons_of_pos, List.find?_cons_of_neg]
    norm_num
  · simp +decide [validateBudgetHierarchy, stC8w, stC8,
      St.findPrimaryMonthly, St.findWeekly, primaryBase, weeklyBase, jsOr,
      List.find?_cons_of_pos, List.find?_cons_of_neg]
    norm_num
  · simp +decide [editBudget, validateBudgetHierarchy, stC8w, stC8,
      St.findBudget, St.findPrimaryMonthly, St.findWeekly, primaryBase,
      weeklyBase, jsOr, List.find?_cons_of_pos, List.find?_cons_of_neg]
    norm_num
  · simp +decide [editBudget, validateBudgetHierarchy, stC8w, stC8,
      St.findBudget, St.findPrimaryMonthly, St.findWeekly, primaryBase,
      weeklyBase, jsOr, List.find?_cons_of_pos, List.find?_cons_of_neg]
    norm_num

/-- Witness for C8 at the concrete non-positive amount `-1` and frequency
`daily`. -/
theorem c8_hierarchy_validator_scenario_witness :
    validateBudgetHierarchy stC8 1 Frequency.daily (-1) =
      Validation.invalid ValidationMsg.notPositive :=
  (c8_hierarchy_validator_scenario (-1) Frequency.daily (by norm_num)).1

/-! ## C2: the cascade set of an expense -/

/-- Counterexample to C2 as stated: a daily expense of 100 posted through
`POST /api/transactions` (transactional mode) does change the monthly
budget's `currentAmount` — the availability reconciliation run inside the
same request overwrites it from 400000 to 399900. -/
theorem c2_counterexample_monthly_changed_by_daily_expense :
    (stInvWitness.findBudget 1).map Budget.currentAmount = some 400000 ∧
    ((postTransaction true id stInvWitness 1 TxType.expense 100 "c" 3
        dateW).2.findBudget 1).map Budget.currentAmount = some 399900 := by
  constructor
  · rfl
  · simp +decide [postTransaction, postTxTransactional, stInvWitness, dateW,
      St.findDay, St.findBudget, St.findWeekly, St.findPrimaryMonthly,
      cascadeSet, checkCascade, applyAffected, St.setCur, updateDayTotals,
      dayGains, dayExpenses, lastDayFinal, latestDay,
      calculateBudgetsAvailable, monthExpenses, jsOr, round2, round_eq,
      upsertDay, List.find?_cons_of_pos, List.find?_cons_of_neg]
    norm_num

/-- C2 as amended: in both concurrency modes, an expense of `X` against the
daily budget decreases the daily and the weekly `currentAmount` by exactly
`X` each, and the cascade set recorded in the JournalEntry is exactly the
target plus its immediate parent (daily and weekly — the monthly budget is
not part of the cascade); however the primary monthly budget is not left
unchanged in general: the availability reconciliation run by the same
request's Day update overwrites its `currentAmount` with
`max 0 (round2 (M - X))` whenever that differs from the stored balance by
more than `0.01`. -/
theorem c2_daily_expense_cascades_to_weekly_only
    (M m w dd x : ℚ) (hM : M ≠ 0) (hx : 0 < x) (hxd : x ≤ dd)
    (hxw : x ≤ w) :
    ∀ mode : Bool,
      (postTransaction mode id (hierSt M m w dd) 1 TxType.expense x "c" 3
          dateW).1 = TxOutcome.created ∧
      (((postTransaction mode id (hierSt M m w dd) 1 TxType.expense x "c" 3
          dateW).2.findBudget 3).map Budget.currentAmount =
        some (dd - x)) ∧
      (((postTransaction mode id (hierSt M m w dd) 1 TxType.expense x "c" 3
          dateW).2.findBudget 2).map Budget.currentAmount =
        some (w - x)) ∧
      (((postTransaction mode id (hierSt M m w dd) 1 TxType.expense x "c" 3
          dateW).2.findBudget 1).map Budget.currentAmount =
        some (if 1/100 < |m - max 0 (round2 (M - x))| then
          max 0 (round2 (M - x)) else m)) ∧
      ((postTransaction mode id (hierSt M m w dd) 1 TxType.expense x "c" 3
          dateW).2.journal.head? = some
        { userId := 1, txType := JType.expense, amount := x,
          affected := [⟨3, dd, dd - x⟩, ⟨2, w, w - x⟩],
          ruleApplied := if mode then "cascade_expense"
            else "cascade_expense_fallback" }) := by
  have hx0 : ¬(x ≤ 0) := not_le.mpr hx
  have hd0 : ¬(dd - x < 0) := by linarith
  have hw0 : ¬(w - x < 0) := by linarith
  intro mode
  by_cases hrec : (100:ℚ)⁻¹ < |m - max 0 (round2 (M - x))| <;>
    cases mode <;>
    simp +decide [postTransaction, postTxTransactional,
      postTxFallbackExpense, hierSt, dateW, St.findDay, St.findBudget,
      St.findWeekly, St.findPrimaryMonthly, cascadeSet, checkCascade,
      applyAffected, applyCondLoop, St.condDecOne, St.setCur,
      updateDayTotals, dayGains, dayExpenses, lastDayFinal, latestDay,
      calculateBudgetsAvailable, monthExpenses, jsOr, upsertDay,
      List.find?_cons_of_pos, List.find?_cons_of_neg, hx0, hd0, hw0, hrec,
      hM, not_lt.mp hd0, not_lt.mp hw0, le_of_lt hx, hxd, hxw]

/-- Witness for C2's amended theorem at `M = 400000`, balances
`m = 400000`, `w = 2000`, `dd = 1000`, expense `x = 100`, transactional
mode. -/
theorem c2_daily_expense_cascades_to_weekly_only_witness :
    (postTransaction true id (hierSt 400000 400000 2000 1000) 1
        TxType.expense 100 "c" 3 dateW).1 = TxOutcome.created :=
  ((c2_daily_expense_cascades_to_weekly_only 400000 400000 2000 1000 100
    (by norm_num) (by norm_num) (by norm_num) (by norm_num)) true).1

/-! ## C3: exact-ceiling and over-ceiling expenses -/

/-- Counterexample to C3 as stated, in two parts.  First, posting an
expense of exactly `currentAmount` (100) against the daily budget of
`stC3a` does not succeed — the cascade also decrements the weekly parent,
which holds only 50, so the request is rejected with the negative-balance
error.  Second, on `stDrift`, posting exactly `currentAmount` (750)
against the primary monthly budget succeeds but leaves `currentAmount` at
250, not 0: the availability reconciliation inside the same request
overwrites the zero the cascade just wrote. -/
theorem c3_counterexample_exact_ceiling_fails :
    (stC3a.findBudget 3).map Budget.currentAmount = some 100 ∧
    (postTransaction true id stC3a 1 TxType.expense 100 "c" 3 dateW).1 =
      TxOutcome.failed (TxError.negativeBalance "semaine" (-50)) ∧
    (stDrift.findBudget 1).map Budget.currentAmount = some 750 ∧
    (postTransaction true id stDrift 1 TxType.expense 750 "c" 1 dateW).1 =
      TxOutcome.created ∧
    ((postTransaction true id stDrift 1 TxType.expense 750 "c" 1
        dateW).2.findBudget 1).map Budget.currentAmount = some 250 := by
  refine ⟨rfl, ?_, rfl, ?_, ?_⟩ <;>
    simp +decide [postTransaction, postTxTransactional, stC3a, stDrift,
      dateW, St.findDay, St.findBudget, St.findWeekly, St.findPrimaryMonthly,
      cascadeSet, checkCascade, applyAffected, St.setCur, updateDayTotals,
      dayGains, dayExpenses, lastDayFinal, latestDay,
      calculateBudgetsAvailable, monthExpenses, jsOr, round2, round_eq,
      upsertDay, List.find?_cons_of_pos, List.find?_cons_of_neg] <;>
    norm_num

/-- C3 as amended: posting `currentAmount + 1` against a budget with a
non-negative balance is always rejected with the negative-balance
validation error and leaves the store untouched, in both concurrency
modes; posting exactly `currentAmount` (positive) succeeds and drives that
budget's `currentAmount` to exactly 0 provided every other budget of the
cascade set can also cover the amount (here: the weekly parent's balance
is at least the daily balance) — and provided the target is not the
primary monthly budget, whose balance the in-request reconciliation may
subsequently overwrite. -/
theorem c3_ceiling_rejected_exact_succeeds
    (M m w dd : ℚ) (hM : M ≠ 0) (hdd : 0 < dd) (hdw : dd ≤ w) :
    ∀ mode : Bool,
      (postTransaction mode id (hierSt M m w dd) 1 TxType.expense (dd + 1)
          "c" 3 dateW).1 =
        TxOutcome.failed (TxError.negativeBalance "jour" (dd - (dd + 1))) ∧
      (postTransaction mode id (hierSt M m w dd) 1 TxType.expense (dd + 1)
          "c" 3 dateW).2 = hierSt M m w dd ∧
      (postTransaction mode id (hierSt M m w dd) 1 TxType.expense dd "c" 3
          dateW).1 = TxOutcome.created ∧
      ((postTransaction mode id (hierSt M m w dd) 1 TxType.expense dd "c" 3
          dateW).2.findBudget 3).map Budget.currentAmount = some 0 := by
  have h1 : ¬(dd + 1 ≤ 0) := by linarith
  have hx0 : ¬(dd ≤ 0) := not_le.mpr hdd
  have hneg : dd - (dd + 1) < 0 := by linarith
  have hd0 : ¬(dd - dd < 0) := by linarith
  have hw0 : ¬(w - dd < 0) := by linarith
  intro mode
  by_cases hrec : (100:ℚ)⁻¹ < |m - max 0 (round2 (M - dd))| <;>
    cases mode <;>
    simp +decide [postTransaction, postTxTransactional,
      postTxFallbackExpense, hierSt, dateW, St.findDay, St.findBudget,
      St.findWeekly, St.findPrimaryMonthly, cascadeSet, checkCascade,
      applyAffected, applyCondLoop, St.condDecOne, St.setCur,
      updateDayTotals, dayGains, dayExpenses, lastDayFinal, latestDay,
      calculateBudgetsAvailable, monthExpenses, jsOr, upsertDay,
      List.find?_cons_of_pos, List.find?_cons_of_neg, h1, hx0, hneg, hd0,
      hw0, hrec, hM, not_lt.mp hd0, not_lt.mp hw0, le_of_lt hdd, hdw]

/-- Witness for C3's amended theorem at `M = 400000`, `m = 400000`,
`w = 2000`, `dd = 1000`, transactional mode. -/
theorem c3_ceiling_rejected_exact_succeeds_witness :
    (postTransaction true id (hierSt 400000 400000 2000 1000) 1
        TxType.expense 1000 "c" 3 dateW).1 = TxOutcome.created :=
  ((c3_ceiling_rejected_exact_succeeds 400000 400000 2000 1000
    (by norm_num) (by norm_num) (by norm_num)) true).2.2.1

/-! ## C4: the Day rollup recomputes initialPocket -/

/-- C4 (code bug, evaluated at the failing input): after a first gain of
100 on a fresh day the Day record is `initialPocket = 0, gains = 100,
finalPocket = 100`; a second gain of 50 on the same day then rewrites
`initialPocket` to 100 — the Day upsert re-reads the user's latest Day
record, which is today's own, and copies its `finalPocket` — and sets
`finalPocket = 250`, where the snapshot semantics of the claim demands
`initialPocket = 0` and `finalPocket = 0 + 150 - 0 = 150`. -/
theorem c4_day_upsert_recomputes_initialPocket :
    c4MidSt.days =
      [(⟨7, dateW, 0, 0, 100, 0, 100, false⟩ : DayRec)] ∧
    (postTransaction true id c4MidSt 7 TxType.gain 50 "second" 99
        dateW).2.days =
      [(⟨7, dateW, 100, 0, 150, 0, 250, false⟩ : DayRec)] ∧
    (100 : ℚ) ≠ 0 ∧ (250 : ℚ) ≠ 0 + 150 - 0 := by
  refine ⟨?_, ?_, by norm_num, by norm_num⟩ <;>
    simp +decide [c4MidSt, stEmpty, postTransaction, postTxTransactional,
      dateW, St.findDay, St.findBudget, St.findWeekly, St.findPrimaryMonthly,
      updateDayTotals, dayGains, dayExpenses, lastDayFinal, latestDay,
      Date.before, calculateBudgetsAvailable, monthExpenses, jsOr, upsertDay,
      List.find?_cons_of_pos, List.find?_cons_of_neg] <;>
    norm_num

/-! ## C6: gains leave budgets alone — almost -/

/-- Counterexample to C6 as stated: on the drifted store `stDrift`
(primary `initialAmount = 1000`, stored `currentAmount = 750`, no
transactions), posting a gain of 50 changes the primary budget's
`currentAmount` — the Day update's availability reconciliation overwrites
it to 1000.  A gain therefore can (and here does) increase a budget
balance. -/
theorem c6_counterexample_gain_moves_primary :
    (stDrift.findBudget 1).map Budget.currentAmount = some 750 ∧
    (postTransaction true id stDrift 1 TxType.gain 50 "g" 1 dateW).1 =
      TxOutcome.created ∧
    ((postTransaction true id stDrift 1 TxType.gain 50 "g" 1
        dateW).2.findBudget 1).map Budget.currentAmount = some 1000 := by
  refine ⟨rfl, ?_, ?_⟩ <;>
    simp +decide [postTransaction, postTxTransactional, stDrift, dateW,
      St.findDay, St.findBudget, St.findWeekly, St.findPrimaryMonthly,
      St.setCur, updateDayTotals, dayGains, dayExpenses, lastDayFinal,
      latestDay, calculateBudgetsAvailable, monthExpenses, jsOr, round2,
      round_eq, upsertDay, List.find?_cons_of_pos,
      List.find?_cons_of_neg] <;>
    norm_num

/-- C6 as amended: posting a gain appends a gain Transaction and a
JournalEntry with `ruleApplied = "gain_to_savings"` and an empty affected
list, increases `Day.gains` by the amount (and `finalPocket` with it —
`budgetsAvailable` is refreshed to the reconciler figure), and leaves the
daily and weekly budgets' `currentAmount` unchanged; the primary monthly
budget, however, is not guaranteed unchanged: the same request's
availability reconciliation overwrites its `currentAmount` with
`max 0 (round2 M)` whenever the stored balance drifts from that figure by
more than `0.01`.  Both concurrency modes behave alike. -/
theorem c6_gain_only_touches_day_and_reconciler
    (M m w dd x : ℚ) (hM : M ≠ 0) (hx : 0 < x) :
    ∀ mode : Bool,
      (postTransaction mode id (hierSt M m w dd) 1 TxType.gain x "g" 2
          dateW).1 = TxOutcome.created ∧
      (postTransaction mode id (hierSt M m w dd) 1 TxType.gain x "g" 2
          dateW).2.transactions =
        [(⟨1, some 2, TxType.gain, x, "g", dateW⟩ : Txn)] ∧
      (postTransaction mode id (hierSt M m w dd) 1 TxType.gain x "g" 2
          dateW).2.journal.head? =
        some (⟨1, JType.gain, x, [], "gain_to_savings"⟩ : JEntry) ∧
      (postTransaction mode id (hierSt M m w dd) 1 TxType.gain x "g" 2
          dateW).2.days =
        [(⟨1, dateW, 0, max 0 (round2 M), x, 0, x, false⟩ : DayRec)] ∧
      (((postTransaction mode id (hierSt M m w dd) 1 TxType.gain x "g" 2
          dateW).2.findBudget 3).map Budget.currentAmount = some dd) ∧
      (((postTransaction mode id (hierSt M m w dd) 1 TxType.gain x "g" 2
          dateW).2.findBudget 2).map Budget.currentAmount = some w) ∧
      (((postTransaction mode id (hierSt M m w dd) 1 TxType.gain x "g" 2
          dateW).2.findBudget 1).map Budget.currentAmount =
        some (if 1/100 < |m - max 0 (round2 M)| then max 0 (round2 M)
          else m)) := by
  have hx0 : ¬(x ≤ 0) := not_le.mpr hx
  intro mode
  by_cases hrec : (100:ℚ)⁻¹ < |m - max 0 (round2 M)| <;>
    cases mode <;>
    simp +decide [postTransaction, postTxTransactional, postTxFallbackGain,
      hierSt, dateW, St.findDay, St.findBudget, St.findWeekly,
      St.findPrimaryMonthly, St.setCur, updateDayTotals, dayGains,
      dayExpenses, lastDayFinal, latestDay, calculateBudgetsAvailable,
      monthExpenses, jsOr, upsertDay, List.find?_cons_of_pos,
      List.find?_cons_of_neg, hx0, hrec, hM]

/-- Witness for C6's amended theorem at `M = 400000`, `m = 400000`,
`w = 2000`, `dd = 1000`, gain 50, transactional mode. -/
theorem c6_gain_only_touches_day_and_reconciler_witness :
    (postTransaction true id (hierSt 400000 400000 2000 1000) 1 TxType.gain
        50 "g" 2 dateW).1 = TxOutcome.created :=
  ((c6_gain_only_touches_day_and_reconciler 400000 400000 2000 1000 50
    (by norm_num) (by norm_num)) true).1

/-! ## C10: tontine contributions bypass the cascade engine -/

/-- Counterexample to C10 as stated: contributing 100 to the tontine of
`tontSt 1000 1000 500 0 0` does not leave every budget's `currentAmount`
unchanged, and the lowering of the reconciler's available-this-month
figure is not deferred to "later": within the same request the Day update
invokes the availability reconciler, which overwrites the primary monthly
budget's `currentAmount` from 1000 to 900. -/
theorem c10_counterexample_contribution_moves_primary :
    ((tontSt 1000 1000 500 0 0).findBudget 1).map Budget.currentAmount =
      some 1000 ∧
    (contributeTontine (tontSt 1000 1000 500 0 0) 5 1 100 dateW).1 =
      TxOutcome.created ∧
    ((contributeTontine (tontSt 1000 1000 500 0 0) 5 1 100
        dateW).2.findBudget 1).map Budget.currentAmount = some 900 := by
  refine ⟨rfl, ?_, ?_⟩ <;>
    simp +decide [contributeTontine, tontSt, dateW, St.findBudget,
      St.findWeekly, St.findPrimaryMonthly, St.setCur, updateDayTotals,
      dayGains, dayExpenses, lastDayFinal, latestDay,
      calculateBudgetsAvailable, monthExpenses, jsOr, round2, round_eq,
      upsertDay, List.find?_cons_of_pos, List.find?_cons_of_neg] <;>
    norm_num

/-- C10 as amended: contributing any positive `x` to a budget-linked
tontine succeeds unconditionally — there is no negative-balance and no
day-lock check (no hypothesis relates `x` to any balance) — and appends an
expense Transaction against the linked budget while never running the
cascade: the linked weekly budget's `currentAmount` is untouched, and the
only JournalEntries that may appear come from the availability
reconciliation.  On a day with no prior transactions the Day upsert
records `expenses = x` and `finalPocket = -x` (a decrease), and the
reconciler's lowered figure `max 0 (round2 (M - x))` is applied to the
primary monthly budget immediately — its `currentAmount` is overwritten
within the same request whenever the drift exceeds `0.01`. -/
theorem c10_contribution_bypasses_cascade
    (M m w c0 t0 x : ℚ) (hM : M ≠ 0) (hx : 0 < x) :
    (contributeTontine (tontSt M m w c0 t0) 5 1 x dateW).1 =
      TxOutcome.created ∧
    (contributeTontine (tontSt M m w c0 t0) 5 1 x dateW).2.transactions =
      [(⟨1, some 2, TxType.expense, x, "Tontine", dateW⟩ : Txn)] ∧
    (contributeTontine (tontSt M m w c0 t0) 5 1 x dateW).2.tontines =
      [(⟨5, "T", 100, some 2, t0 + x, [⟨1, c0 + x, 1⟩]⟩ : Tontine)] ∧
    ((contributeTontine (tontSt M m w c0 t0) 5 1 x
        dateW).2.findBudget 2).map Budget.currentAmount = some w ∧
    (contributeTontine (tontSt M m w c0 t0) 5 1 x dateW).2.days =
      [(⟨1, dateW, 0, max 0 (round2 (M - x)), 0, x, -x, false⟩ : DayRec)] ∧
    ((contributeTontine (tontSt M m w c0 t0) 5 1 x
        dateW).2.findBudget 1).map Budget.currentAmount =
      some (if 1/100 < |m - max 0 (round2 (M - x))| then
        max 0 (round2 (M - x)) else m) ∧
    (∀ je ∈ (contributeTontine (tontSt M m w c0 t0) 5 1 x
        dateW).2.journal,
      je.ruleApplied = "reconcile_primary_current_amount") := by
  have hx0 : (x == 0) = false :=
    beq_eq_false_iff_ne.mpr (ne_of_gt hx)
  by_cases hrec : (100:ℚ)⁻¹ < |m - max 0 (round2 (M - x))| <;>
    simp +decide [contributeTontine, tontSt, dateW, St.findBudget,
      St.findWeekly, St.findPrimaryMonthly, St.setCur, updateDayTotals,
      dayGains, dayExpenses, lastDayFinal, latestDay,
      calculateBudgetsAvailable, monthExpenses, jsOr, upsertDay,
      List.find?_cons_of_pos, List.find?_cons_of_neg, hx0, hrec, hM,
      ne_of_gt hx]

/-- Witness for C10's amended theorem at `M = 1000`, `m = 1000`,
`w = 500`, contribution 100. -/
theorem c10_contribution_bypasses_cascade_witness :
    (contributeTontine (tontSt 1000 1000 500 0 0) 5 1 100 dateW).1 =
      TxOutcome.created :=
  (c10_contribution_bypasses_cascade 1000 1000 500 0 0 100 (by norm_num)
    (by norm_num)).1

end Finavi
